import Mathlib

/-
  Verification development for the Scalarm Simulation Manager worker
  (Go sources: scalarmSimulationManager.go and the scalarm_worker
  ExperimentManager client).

  The Go code is shallowly embedded: time is modelled in whole seconds as
  naturals, the network is modelled by per-attempt outcome schedules, and
  the straight-line orchestration code after the executor is modelled as
  the list of externally visible events it performs, in source order.
-/

namespace ScalarmSiM

/-! ## Dynamic JSON values

Go decodes coordinator responses into map[string]interface{}; we model the
decoded object as an association list of string keys to JSON values. -/

inductive JVal where
  | jnull
  | jbool (b : Bool)
  | jnum (x : Int)
  | jstr (s : String)
  | jarr (elems : List JVal)
  | jobj (fields : List (String × JVal))

/-- Lookup of a key in a decoded JSON object (Go map indexing: a missing
key yields the zero value nil). -/
def jlookup (m : List (String × JVal)) (k : String) : Option JVal :=
  match m with
  | [] => none
  | (k2, v) :: rest => if k2 = k then some v else jlookup rest k

/-- Go interface type assertion x.(string): succeeds only when the value is
present and is a string; any other shape (nil included) panics, which we
model as none. -/
def goAssertString : Option JVal → Option String
  | some (JVal.jstr s) => some s
  | _ => none

/-- Go interface type assertion x.(float64): JSON numbers decode to float64,
so the assertion succeeds exactly when the value is present and numeric. -/
def goAssertNum : Option JVal → Option Int
  | some (JVal.jnum x) => some x
  | _ => none

/-! ## Request dispatcher: GetWithTimeout and ExecuteScalarmRequest

GetWithTimeout (source lines 153-183) loops calling client.Do on the same
request while start + communicationTimeout > now, sleeping 1 s after each
transport error; on any response (status code never inspected) it breaks
and reads the body, which can itself fail.  We model the outcome of the
k-th client.Do call by a schedule, with a duration for each failed call;
each failed iteration consumes (duration + 1 s sleep) of the time budget. -/

/-- Outcome of one client.Do call: a transport error, or an HTTP response
carrying a status code and the result of reading its body. -/
inductive DoOutcome where
  | doErr (msg : String)
  | resp (statusCode : Nat) (readRes : Except String (List Nat))

/-- Result of GetWithTimeout as seen by its caller: the returned (body, err)
pair.  transportFail none is the degenerate zero-iteration case (timeout
not positive), where err is still nil. -/
inductive GWTResult where
  | transportFail (lastErr : Option String)
  | readFail (msg : String)
  | success (body : List Nat)
deriving DecidableEq

/-- The retry loop of GetWithTimeout.  remaining is the unused part of the
time budget (loop guard: remaining not zero); fuel only bounds recursion
and is kept at least remaining, so the fuel branch coincides with budget
exhaustion at every reachable call. -/
def gwtLoop (attempts : Nat → DoOutcome) (dur : Nat → Nat) :
    Nat → Nat → Nat → Option String → GWTResult
  | 0, _, _, lastErr => GWTResult.transportFail lastErr
  | fuel + 1, remaining, k, lastErr =>
    if remaining = 0 then GWTResult.transportFail lastErr
    else
      match attempts k with
      | DoOutcome.doErr m =>
          gwtLoop attempts dur fuel (remaining - (dur k + 1)) (k + 1) (some m)
      | DoOutcome.resp _statusCode readRes =>
          match readRes with
          | Except.ok b => GWTResult.success b
          | Except.error m => GWTResult.readFail m

/-- GetWithTimeout: run the retry loop with the full time budget. -/
def GetWithTimeout (communicationTimeout : Nat) (attempts : Nat → DoOutcome)
    (dur : Nat → Nat) : GWTResult :=
  gwtLoop attempts dur communicationTimeout communicationTimeout 0 none

/-- Number of client.Do calls the retry loop makes. -/
def gwtCountLoop (attempts : Nat → DoOutcome) (dur : Nat → Nat) :
    Nat → Nat → Nat → Nat
  | 0, _, _ => 0
  | fuel + 1, remaining, k =>
    if remaining = 0 then 0
    else
      match attempts k with
      | DoOutcome.doErr _ =>
          1 + gwtCountLoop attempts dur fuel (remaining - (dur k + 1)) (k + 1)
      | DoOutcome.resp _ _ => 1

/-- Number of client.Do calls GetWithTimeout makes for one endpoint. -/
def gwtAttemptCount (communicationTimeout : Nat) (attempts : Nat → DoOutcome)
    (dur : Nat → Nat) : Nat :=
  gwtCountLoop attempts dur communicationTimeout communicationTimeout 0

/-- The caller of GetWithTimeout only tests err == nil (source line 143):
true for a successful body read, and also in the degenerate case where the
loop never ran and err is still its nil zero value. -/
def gwtErrIsNil : GWTResult → Bool
  | GWTResult.success _ => true
  | GWTResult.transportFail none => true
  | _ => false

/-- The []byte value GetWithTimeout hands back (nil, modelled as [], unless
a body was read). -/
def gwtBody : GWTResult → List Nat
  | GWTResult.success b => b
  | _ => []

/-- Erase the HTTP status code of an outcome, keeping everything else. -/
def stripStatus : DoOutcome → DoOutcome
  | DoOutcome.doErr m => DoOutcome.doErr m
  | DoOutcome.resp _ readRes => DoOutcome.resp 0 readRes

/-- ExecuteScalarmRequest (source lines 117-150): walk the shuffled
endpoint list; for each endpoint run GetWithTimeout and return its body as
soon as err == nil; if every endpoint fails, Fatal is called (process
exit), modelled as none.  The permutation is a parameter: the claims
quantify over whichever permutation rand.Perm drew. -/
def ExecuteScalarmRequest (perm : List Nat) (gwt : Nat → GWTResult) :
    Option (List Nat) :=
  match perm with
  | [] => none
  | v :: rest =>
    if gwtErrIsNil (gwt v) then some (gwtBody (gwt v))
    else ExecuteScalarmRequest rest gwt

/-- The dispatcher with the per-endpoint attempt schedules spelled out. -/
def ExecuteScalarmRequestFull (perm : List Nat) (communicationTimeout : Nat)
    (attempts : Nat → Nat → DoOutcome) (dur : Nat → Nat → Nat) :
    Option (List Nat) :=
  ExecuteScalarmRequest perm
    (fun v => GetWithTimeout communicationTimeout (attempts v) (dur v))

/-! ### Dispatcher lemmas -/

theorem executeScalarmRequest_eq_find (perm : List Nat) (gwt : Nat → GWTResult) :
    ExecuteScalarmRequest perm gwt
      = (List.find? (fun v => gwtErrIsNil (gwt v)) perm).map
          (fun v => gwtBody (gwt v)) := by
  induction perm with
  | nil => rfl
  | cons v rest ih =>
    simp only [ExecuteScalarmRequest, List.find?]
    cases h : gwtErrIsNil (gwt v) with
    | true => simp [h]
    | false => simp [h, ih]

theorem gwtLoop_stripStatus (attempts : Nat → DoOutcome) (dur : Nat → Nat) :
    ∀ fuel remaining k lastErr,
      gwtLoop (fun k => stripStatus (attempts k)) dur fuel remaining k lastErr
        = gwtLoop attempts dur fuel remaining k lastErr := by
  intro fuel
  induction fuel with
  | zero => intro remaining k lastErr; rfl
  | succ n ih =>
    intro remaining k lastErr
    simp only [gwtLoop]
    by_cases hr : remaining = 0
    · simp [hr]
    · rw [if_neg hr, if_neg hr]
      cases h2 : attempts k with
      | doErr m =>
        show gwtLoop (fun k => stripStatus (attempts k)) dur n
              (remaining - (dur k + 1)) (k + 1) (some m)
            = gwtLoop attempts dur n (remaining - (dur k + 1)) (k + 1) (some m)
        exact ih _ _ _
      | resp st readRes => cases readRes <;> rfl

theorem gwtCountLoop_le (attempts : Nat → DoOutcome) (dur : Nat → Nat) :
    ∀ fuel remaining k, gwtCountLoop attempts dur fuel remaining k ≤ remaining := by
  intro fuel
  induction fuel with
  | zero => intro remaining k; exact Nat.zero_le _
  | succ n ih =>
    intro remaining k
    simp only [gwtCountLoop]
    by_cases h : remaining = 0
    · simp [h]
    · simp only [h, if_false]
      cases h2 : attempts k with
      | doErr m =>
        simp only [h2]
        have := ih (remaining - (dur k + 1)) (k + 1)
        omega
      | resp st readRes => simp only [h2]; omega

theorem gwtLoop_allErr (attempts : Nat → DoOutcome) (dur : Nat → Nat)
    (hall : ∀ k, ∃ m, attempts k = DoOutcome.doErr m) :
    ∀ fuel remaining k m0,
      ∃ m, gwtLoop attempts dur fuel remaining k (some m0)
            = GWTResult.transportFail (some m) := by
  intro fuel
  induction fuel with
  | zero => intro remaining k m0; exact ⟨m0, rfl⟩
  | succ n ih =>
    intro remaining k m0
    simp only [gwtLoop]
    by_cases h : remaining = 0
    · exact ⟨m0, by simp [h]⟩
    · obtain ⟨m, hm⟩ := hall k
      simp only [h, if_false, hm]
      exact ih _ _ m

theorem getWithTimeout_allErr (communicationTimeout : Nat)
    (attempts : Nat → DoOutcome) (dur : Nat → Nat)
    (hpos : 0 < communicationTimeout)
    (hall : ∀ k, ∃ m, attempts k = DoOutcome.doErr m) :
    gwtErrIsNil (GetWithTimeout communicationTimeout attempts dur) = false := by
  unfold GetWithTimeout
  obtain ⟨f, hf⟩ : ∃ f, communicationTimeout = f + 1 :=
    ⟨communicationTimeout - 1, by omega⟩
  rw [hf]
  obtain ⟨m, hm⟩ := hall 0
  simp only [gwtLoop, Nat.succ_ne_zero, if_false, hm]
  obtain ⟨m2, hm2⟩ := gwtLoop_allErr attempts dur hall f (f + 1 - (dur 0 + 1)) 1 m
  rw [hm2]
  rfl

/-! ## Job acquisition: classification of a next_simulation response

Source lines 409-459.  A response body either fails json.Unmarshal (none)
or decodes to an object.  The inner loop then reads
simulation_run["status"].(string) and branches; on status "wait" the loop
breaks and, right after the loop, sleeps
simulation_run["duration_in_seconds"].(float64) seconds.  Both type
assertions panic on a missing or differently typed value.  Nothing happens
between the "wait" break and the sleep except reading the wait flag, so we
fold the post-loop duration assertion into the per-response outcome. -/

/-- Overall effect of handling one decoded next_simulation response. -/
inductive AcqStep where
  | proceedJob
  | waitSleep (d : Int)
  | retryShort
  | panicked
deriving DecidableEq

def nextSimulationOutcome (body : Option (List (String × JVal))) : AcqStep :=
  match body with
  | none => AcqStep.retryShort
  | some m =>
    match goAssertString (jlookup m "status") with
    | none => AcqStep.panicked
    | some status =>
      if status = "all_sent" then AcqStep.retryShort
      else if status = "error" then AcqStep.retryShort
      else if status = "wait" then
        match goAssertNum (jlookup m "duration_in_seconds") with
        | some d => AcqStep.waitSleep d
        | none => AcqStep.panicked
      else if status ≠ "ok" then AcqStep.retryShort
      else AcqStep.proceedJob

/-- Exit of the inner acquisition loop (lines 418-459).  The loop guard is
communicationStart + communicationTimeout * len(experimentManagers) >
now; a retryShort iteration sleeps 5 s on top of the request duration;
when the guard fails with no job and no wait, main prints and calls
os.Exit(0). -/
inductive AcqLoopResult where
  | gotJob (k : Nat)
  | waitThenRetry (k : Nat) (d : Int)
  | panickedAt (k : Nat)
  | exitSuccess
deriving DecidableEq

/-- The inner acquisition loop.  bodies k is the decoded body of the k-th
next_simulation request (none = unmarshal failure), reqDur k the seconds
that request took.  remaining is the unused time budget; fuel is kept at
least remaining (each iteration consumes reqDur + 5 ≥ 1 seconds), so the
fuel branch coincides with budget exhaustion at every reachable call. -/
def acqLoop (bodies : Nat → Option (List (String × JVal))) (reqDur : Nat → Nat) :
    Nat → Nat → Nat → AcqLoopResult
  | 0, _, _ => AcqLoopResult.exitSuccess
  | fuel + 1, remaining, k =>
    if remaining = 0 then AcqLoopResult.exitSuccess
    else
      match nextSimulationOutcome (bodies k) with
      | AcqStep.proceedJob => AcqLoopResult.gotJob k
      | AcqStep.waitSleep d => AcqLoopResult.waitThenRetry k d
      | AcqStep.panicked => AcqLoopResult.panickedAt k
      | AcqStep.retryShort =>
          acqLoop bodies reqDur fuel (remaining - (reqDur k + 5)) (k + 1)

/-- One pass of the acquisition loop with time budget
communicationTimeout * number of experiment managers. -/
def acquisitionLoop (budget : Nat) (bodies : Nat → Option (List (String × JVal)))
    (reqDur : Nat → Nat) : AcqLoopResult :=
  acqLoop bodies reqDur budget budget 0

/-- Number of next_simulation requests one pass of the loop issues. -/
def acqCountLoop (bodies : Nat → Option (List (String × JVal))) (reqDur : Nat → Nat) :
    Nat → Nat → Nat → Nat
  | 0, _, _ => 0
  | fuel + 1, remaining, k =>
    if remaining = 0 then 0
    else
      match nextSimulationOutcome (bodies k) with
      | AcqStep.retryShort =>
          1 + acqCountLoop bodies reqDur fuel (remaining - (reqDur k + 5)) (k + 1)
      | _ => 1

def acquisitionRequestCount (budget : Nat)
    (bodies : Nat → Option (List (String × JVal))) (reqDur : Nat → Nat) : Nat :=
  acqCountLoop bodies reqDur budget budget 0

/-! ## Progress Monitor: the intermediate reporting step

Source lines 228-244: when the parsed intermediate result has status "ok",
the monitor POSTs it to the experiment-manager pool through
ExecuteScalarmRequest; otherwise it does not touch the network.
ExecuteScalarmRequest calls Fatal (process exit 1) when every endpoint is
exhausted (line 148). -/

inductive ProgressReportStep where
  | skipped
  | reported (body : List Nat)
  | fatalExit
deriving DecidableEq

def progressInfoStep (intermediateStatus : String) (perm : List Nat)
    (gwt : Nat → GWTResult) : ProgressReportStep :=
  if intermediateStatus = "ok" then
    match ExecuteScalarmRequest perm gwt with
    | some b => ProgressReportStep.reported b
    | none => ProgressReportStep.fatalExit
  else ProgressReportStep.skipped

/-! ## Final result construction from output.json

Source lines 547-568.  simulationRunResults starts as the zero value of
the struct; the three failure shapes overwrite Status and Reason. -/

structure SimulationRunResults where
  status : String
  results : Option JVal
  reason : String

/-- State of output.json when main reads it after the pipeline. -/
inductive OutputFileState where
  | absent (errMsg : String)
  | openFailed (errMsg : String)
  | parseFailed (errMsg : String) (decodedSoFar : SimulationRunResults)
  | parsed (r : SimulationRunResults)

def buildRunResults : OutputFileState → SimulationRunResults
  | OutputFileState.absent m =>
      { status := "error", results := none,
        reason := "No output.json file found: " ++ m }
  | OutputFileState.openFailed m =>
      { status := "error", results := none,
        reason := "Could not open output.json: " ++ m }
  | OutputFileState.parseFailed m p =>
      { p with status := "error",
               reason := "Error during output.json parsing: " ++ m }
  | OutputFileState.parsed r => r

/-! ## Event traces of the post-executor straight-line code

Source lines 527-660 (main, after the executor returns successfully) and
lines 247-258 (the monitor shutdown), as the sequence of externally
visible operations in source order.  The channels messages and finished
are both buffered with capacity 1 (lines 509-510), so the sends never
block. -/

inductive Ev where
  | sendStop
  | closeMessages
  | outputTransform
  | markAsComplete (status : String) (reason : String)
  | uploadBinaries
  | uploadStdout
  | spawnCleanup
  | monitorNoScriptMsg
  | recvStop
  | sendFinished
  | recvFinished
  | removeDir
deriving DecidableEq

/-- Events main performs after the executor returns, in source order:
send on messages (line 527), close (528), optional output_reader
(531-544), mark_as_complete POST (570-584), optional uploads (587-645),
then spawning the cleanup goroutine (648-654).  Fatal sub-paths, which
terminate the process, are not part of this success trace. -/
def mainPostExecutorEvents (hasOutputReader : Bool) (st : OutputFileState)
    (hasTarGz hasStdout : Bool) : List Ev :=
  [Ev.sendStop, Ev.closeMessages]
    ++ (if hasOutputReader then [Ev.outputTransform] else [])
    ++ [Ev.markAsComplete (buildRunResults st).status (buildRunResults st).reason]
    ++ (if hasTarGz then [Ev.uploadBinaries] else [])
    ++ (if hasStdout then [Ev.uploadStdout] else [])
    ++ [Ev.spawnCleanup]

/-- The cleanup goroutine (lines 648-654): receive on finished, then
remove the simulation directory. -/
def cleanupTaskEvents : List Ev := [Ev.recvFinished, Ev.removeDir]

/-- The monitor around shutdown: with a progress_monitor script it reaches
the select, receives the stop message and sends on finished just before
returning (lines 247-253); without a script it logs and sends on finished
just before returning (lines 255-258). -/
def monitorShutdownEvents (hasScript : Bool) : List Ev :=
  if hasScript then [Ev.recvStop, Ev.sendFinished]
  else [Ev.monitorNoScriptMsg, Ev.sendFinished]

/-- All order-preserving merges of two traces, fuel-structured so the
definition evaluates in the kernel; the wrapper passes enough fuel that
the fallback branch is unreachable. -/
def interleavingsF : Nat → List Ev → List Ev → List (List Ev)
  | 0, xs, ys => [xs ++ ys]
  | _ + 1, [], ys => [ys]
  | _ + 1, x :: xs, [] => [x :: xs]
  | fuel + 1, x :: xs, y :: ys =>
      (interleavingsF fuel xs (y :: ys)).map (fun t => x :: t)
        ++ (interleavingsF fuel (x :: xs) ys).map (fun t => y :: t)

def interleavings (xs ys : List Ev) : List (List Ev) :=
  interleavingsF (xs.length + ys.length) xs ys

/-- Channel discipline of the buffered finished channel: a receive can
only complete after a send has completed; credit counts completed sends
not yet received. -/
def chanOk : Nat → List Ev → Bool
  | _, [] => true
  | credit, e :: t =>
    match e with
    | Ev.sendFinished => chanOk (credit + 1) t
    | Ev.recvFinished => credit != 0 && chanOk (credit - 1) t
    | _ => chanOk credit t

/-- Scanning the trace, the monitor acknowledgment is met before any
directory removal. -/
def sendFinishedBeforeRemoveDir : List Ev → Bool
  | [] => true
  | Ev.removeDir :: _ => false
  | Ev.sendFinished :: _ => true
  | _ :: t => sendFinishedBeforeRemoveDir t

/-! ## Configuration timeout normalization

Source lines 290-293: if config.Timeout <= 0 { config.Timeout = 60 };
communicationTimeout = Timeout seconds.  The Timeout struct field is a Go
int whose zero value 0 is kept when the json field is absent. -/

def mainEffectiveTimeout (configTimeout : Int) : Int :=
  if configTimeout ≤ 0 then 60 else configTimeout

/-- Decoding of the "timeout" field into the int struct field: absent
leaves the zero value, a number is taken as is, any other shape is a
decode error (main then calls Fatal). -/
def decodedTimeoutField : Option JVal → Option Int
  | none => some 0
  | some (JVal.jnum n) => some n
  | some _ => none

/-! ## Claim theorems -/

/-- Claim C2: for every endpoint pool in which at least one endpoint yields
a transport-level response, the dispatcher returns the body of the first
endpoint in the drawn permutation order whose GetWithTimeout call ends
with a nil error, for every permutation; and the result is invariant under
arbitrary changes of every HTTP status code, since the dispatcher never
inspects them. -/
theorem c2_dispatch_first_responder (perm : List Nat) (communicationTimeout : Nat)
    (attempts : Nat → Nat → DoOutcome) (dur : Nat → Nat → Nat)
    (h : ∃ v ∈ perm,
      gwtErrIsNil (GetWithTimeout communicationTimeout (attempts v) (dur v)) = true) :
    ((List.find?
        (fun v => gwtErrIsNil (GetWithTimeout communicationTimeout (attempts v) (dur v)))
        perm).isSome = true
      ∧ ∀ v, List.find?
          (fun v => gwtErrIsNil (GetWithTimeout communicationTimeout (attempts v) (dur v)))
          perm = some v →
          ExecuteScalarmRequestFull perm communicationTimeout attempts dur
            = some (gwtBody (GetWithTimeout communicationTimeout (attempts v) (dur v))))
    ∧ ExecuteScalarmRequestFull perm communicationTimeout
        (fun v k => stripStatus (attempts v k)) dur
      = ExecuteScalarmRequestFull perm communicationTimeout attempts dur := by
  refine ⟨⟨List.find?_isSome.mpr h, ?_⟩, ?_⟩
  · intro v hv
    rw [ExecuteScalarmRequestFull, executeScalarmRequest_eq_find, hv]
    rfl
  · unfold ExecuteScalarmRequestFull
    congr 1
    funext v
    exact gwtLoop_stripStatus (attempts v) (dur v) _ _ _ _

/-- Witness for C2: a one-endpoint pool answering with HTTP 500 still
counts as success and its body is returned. -/
theorem c2_dispatch_first_responder_witness :
    ExecuteScalarmRequestFull [0] 60
      (fun _ _ => DoOutcome.resp 500 (Except.ok [1, 2])) (fun _ _ => 0)
      = some (gwtBody (GetWithTimeout 60
          ((fun (_ _ : Nat) => DoOutcome.resp 500 (Except.ok [1, 2])) 0)
          ((fun (_ _ : Nat) => (0 : Nat)) 0))) :=
  ((c2_dispatch_first_responder [0] 60
      (fun _ _ => DoOutcome.resp 500 (Except.ok [1, 2])) (fun _ _ => 0)
      ⟨0, by decide, by decide⟩).1).2 0 (by decide)

/-- Claim C7: when every client.Do call of every endpoint fails in
transport and the per-endpoint timeout is positive, the dispatcher returns
the fatal indicator (source: Fatal, process exit) instead of hanging, and
each endpoint's 1-second-backoff retry loop makes at most
communicationTimeout attempts before giving up on that endpoint. -/
theorem c7_exhausted_pool_fatal (perm : List Nat) (communicationTimeout : Nat)
    (attempts : Nat → Nat → DoOutcome) (dur : Nat → Nat → Nat)
    (hpos : 0 < communicationTimeout)
    (hall : ∀ v k, ∃ m, attempts v k = DoOutcome.doErr m) :
    ExecuteScalarmRequestFull perm communicationTimeout attempts dur = none
    ∧ ∀ v, gwtAttemptCount communicationTimeout (attempts v) (dur v)
        ≤ communicationTimeout := by
  constructor
  · rw [ExecuteScalarmRequestFull, executeScalarmRequest_eq_find]
    have hn : List.find?
        (fun v => gwtErrIsNil (GetWithTimeout communicationTimeout (attempts v) (dur v)))
        perm = none := by
      rw [List.find?_eq_none]
      intro v hv
      simp [getWithTimeout_allErr communicationTimeout (attempts v) (dur v) hpos (hall v)]
    rw [hn]
    rfl
  · intro v
    exact gwtCountLoop_le (attempts v) (dur v) _ _ _

/-- Witness for C7: a two-endpoint pool with every connection refused is
reported as a terminal failure. -/
theorem c7_exhausted_pool_fatal_witness :
    ExecuteScalarmRequestFull [0, 1] 3
      (fun _ _ => DoOutcome.doErr "connection refused") (fun _ _ => 0) = none :=
  (c7_exhausted_pool_fatal [0, 1] 3
    (fun _ _ => DoOutcome.doErr "connection refused") (fun _ _ => 0)
    (by decide) (fun _ _ => ⟨"connection refused", rfl⟩)).1

/-- Counterexample to claim C4 as stated: when the intermediate result has
status ok and every coordinator endpoint is unreachable for the whole
30-second window, the progress_info submission reaches the dispatcher's
Fatal path, which terminates the process with exit code 1 — so a progress
reporting failure can be fatal. -/
theorem c4_counterexample :
    progressInfoStep "ok" [0, 1]
      (fun _ => GetWithTimeout 30 (fun _ => DoOutcome.doErr "connection refused")
        (fun _ => 0))
      = ProgressReportStep.fatalExit := by
  decide

/-- Claim C4 amended: an intermediate result without status ok never
touches the network; transient failures are absorbed inside the
dispatcher as long as some endpoint eventually answers, and the report is
then submitted; but exhaustion of every coordinator endpoint during
progress reporting runs the dispatcher's Fatal path (process exit 1). -/
theorem c4_amended_progress_report (intermediateStatus : String) (perm : List Nat)
    (gwt : Nat → GWTResult) :
    (intermediateStatus ≠ "ok" →
      progressInfoStep intermediateStatus perm gwt = ProgressReportStep.skipped)
    ∧ (intermediateStatus = "ok" → (∃ v ∈ perm, gwtErrIsNil (gwt v) = true) →
        ∃ b, progressInfoStep intermediateStatus perm gwt
              = ProgressReportStep.reported b)
    ∧ (intermediateStatus = "ok" → (∀ v ∈ perm, gwtErrIsNil (gwt v) = false) →
        progressInfoStep intermediateStatus perm gwt = ProgressReportStep.fatalExit) := by
  refine ⟨fun h => ?_, fun h hex => ?_, fun h hall => ?_⟩
  · simp [progressInfoStep, h]
  · obtain ⟨v, hv⟩ := Option.isSome_iff_exists.mp (List.find?_isSome.mpr hex)
    exact ⟨gwtBody (gwt v), by
      simp [progressInfoStep, h, executeScalarmRequest_eq_find, hv]⟩
  · have hn : List.find? (fun v => gwtErrIsNil (gwt v)) perm = none := by
      rw [List.find?_eq_none]
      intro v hv
      simp [hall v hv]
    simp [progressInfoStep, h, executeScalarmRequest_eq_find, hn]

/-- Witness for the amended C4: a single unreachable endpoint makes the
ok-status progress report fatal. -/
theorem c4_amended_progress_report_witness :
    progressInfoStep "ok" [0] (fun _ => GWTResult.transportFail (some "refused"))
      = ProgressReportStep.fatalExit :=
  (c4_amended_progress_report "ok" [0]
    (fun _ => GWTResult.transportFail (some "refused"))).2.2 rfl (by decide)

/-- Claim C10: a configured timeout that is zero (also the decoded value
of an absent field) or negative is replaced by the 60-second default, and
every positive configured value is kept unchanged. -/
theorem c10_timeout_defaulting (t : Int) :
    (t ≤ 0 → mainEffectiveTimeout t = 60)
    ∧ (0 < t → mainEffectiveTimeout t = t)
    ∧ decodedTimeoutField none = some 0 ∧ mainEffectiveTimeout 0 = 60 := by
  refine ⟨fun h => ?_, fun h => ?_, rfl, by decide⟩
  · simp [mainEffectiveTimeout, h]
  · rw [mainEffectiveTimeout, if_neg (by omega)]

/-- Witness for C10: a negative configured timeout becomes 60 and a
positive one is kept. -/
theorem c10_timeout_defaulting_witness :
    mainEffectiveTimeout (-5) = 60 ∧ mainEffectiveTimeout 7 = 7 :=
  ⟨(c10_timeout_defaulting (-5)).1 (by decide), (c10_timeout_defaulting 7).2.1 (by decide)⟩

/-- Claim C9: on a decoded wait response, the worker sleeps the requested
time exactly when duration_in_seconds is present as a JSON number; when
the field is absent or has any other type, the float64 type assertion
fails and the worker panics instead of following the sleep-and-retry
path. -/
theorem c9_wait_duration_assertion (m : List (String × JVal))
    (hw : goAssertString (jlookup m "status") = some "wait") :
    (∀ d : Int, jlookup m "duration_in_seconds" = some (JVal.jnum d) →
        nextSimulationOutcome (some m) = AcqStep.waitSleep d)
    ∧ (goAssertNum (jlookup m "duration_in_seconds") = none →
        nextSimulationOutcome (some m) = AcqStep.panicked) := by
  constructor
  · intro d hd
    simp [nextSimulationOutcome, hw, hd, goAssertNum]
  · intro hd
    simp [nextSimulationOutcome, hw, hd]

/-- Witness for C9: a wait response with a numeric duration sleeps that
duration. -/
theorem c9_wait_duration_assertion_witness :
    nextSimulationOutcome
        (some [("status", JVal.jstr "wait"), ("duration_in_seconds", JVal.jnum 5)])
      = AcqStep.waitSleep 5 :=
  (c9_wait_duration_assertion
      [("status", JVal.jstr "wait"), ("duration_in_seconds", JVal.jnum 5)] rfl).1 5 rfl

/-- Counterexample to claim C6 as stated: the empty JSON object decodes
successfully, yet its handling is a runtime type-assertion panic — not one
of the four documented actions — so acquisition classification is not
total over all decodable bodies. -/
theorem c6_counterexample :
    nextSimulationOutcome (some []) = AcqStep.panicked := rfl

/-- Claim C6 amended: classification is total over undecodable bodies and
over decoded bodies whose status field is a string (with a numeric
duration_in_seconds when the status is wait): unmarshal failure,
all_sent, error and every unrecognized string status map to the
log-sleep-retry action, ok proceeds, wait sleeps the decoded duration;
but a decoded body whose status is missing or not a string, or a wait
body without a numeric duration, makes the worker panic.  Termination on
all_sent happens only later, when the acquisition window expires. -/
theorem c6_amended_classification (m : List (String × JVal)) :
    nextSimulationOutcome none = AcqStep.retryShort
    ∧ (goAssertString (jlookup m "status") = none →
        nextSimulationOutcome (some m) = AcqStep.panicked)
    ∧ (goAssertString (jlookup m "status") = some "ok" →
        nextSimulationOutcome (some m) = AcqStep.proceedJob)
    ∧ (∀ s, goAssertString (jlookup m "status") = some s → s ≠ "ok" → s ≠ "wait" →
        nextSimulationOutcome (some m) = AcqStep.retryShort)
    ∧ (goAssertString (jlookup m "status") = some "wait" →
        nextSimulationOutcome (some m)
          = match goAssertNum (jlookup m "duration_in_seconds") with
            | some d => AcqStep.waitSleep d
            | none => AcqStep.panicked) := by
  refine ⟨rfl, fun h => ?_, fun h => ?_, fun s hs hok hwait => ?_, fun h => ?_⟩
  · simp [nextSimulationOutcome, h]
  · simp [nextSimulationOutcome, h]
  · simp only [nextSimulationOutcome, hs]
    by_cases h1 : s = "all_sent"
    · simp [h1]
    · by_cases h2 : s = "error"
      · simp [h1, h2]
      · simp [h1, h2, hwait, hok]
  · simp [nextSimulationOutcome, h]

/-- Witness for the amended C6: an all_sent response maps to the
log-sleep-retry action. -/
theorem c6_amended_classification_witness :
    nextSimulationOutcome (some [("status", JVal.jstr "all_sent")])
      = AcqStep.retryShort :=
  (c6_amended_classification [("status", JVal.jstr "all_sent")]).2.2.2.1
    "all_sent" rfl (by decide) (by decide)

/-- Counterexample to claim C5 as stated: with every response reporting
all_sent and a 10-second window, the process does eventually exit with
code 0, but only after issuing a second next_simulation request — an
all_sent response does not stop further requests. -/
theorem c5_counterexample :
    acquisitionLoop 10 (fun _ => some [("status", JVal.jstr "all_sent")]) (fun _ => 0)
      = AcqLoopResult.exitSuccess
    ∧ acquisitionRequestCount 10 (fun _ => some [("status", JVal.jstr "all_sent")])
        (fun _ => 0) = 2 := by
  exact ⟨rfl, rfl⟩

theorem acqLoop_retryShort_forever (bodies : Nat → Option (List (String × JVal)))
    (reqDur : Nat → Nat)
    (h : ∀ k, nextSimulationOutcome (bodies k) = AcqStep.retryShort) :
    ∀ fuel remaining k, acqLoop bodies reqDur fuel remaining k
      = AcqLoopResult.exitSuccess := by
  intro fuel
  induction fuel with
  | zero => intro remaining k; rfl
  | succ n ih =>
    intro remaining k
    simp only [acqLoop, h k]
    by_cases hr : remaining = 0
    · simp [hr]
    · simp [hr, ih]

/-- Claim C5 amended: when every next_simulation response within the
acquisition window decodes with status all_sent, the inner loop keeps
logging, sleeping 5 seconds and re-requesting until the window of
communicationTimeout times the number of endpoints expires, and only then
does main exit with code 0; exit code 0 is eventually reached, but
further requests are issued until the window runs out. -/
theorem c5_amended_all_sent_retries (budget : Nat)
    (bodies : Nat → Option (List (String × JVal))) (reqDur : Nat → Nat)
    (h : ∀ k, ∃ m, bodies k = some m
          ∧ jlookup m "status" = some (JVal.jstr "all_sent")) :
    acquisitionLoop budget bodies reqDur = AcqLoopResult.exitSuccess := by
  have hstep : ∀ k, nextSimulationOutcome (bodies k) = AcqStep.retryShort := by
    intro k
    obtain ⟨m, hm, hs⟩ := h k
    rw [hm]
    simp [nextSimulationOutcome, hs, goAssertString]
  exact acqLoop_retryShort_forever bodies reqDur hstep budget budget 0

/-- Witness for the amended C5: an everywhere-all_sent schedule with a
7-second window ends in the successful exit. -/
theorem c5_amended_all_sent_retries_witness :
    acquisitionLoop 7 (fun _ => some [("status", JVal.jstr "all_sent")]) (fun _ => 0)
      = AcqLoopResult.exitSuccess :=
  c5_amended_all_sent_retries 7 (fun _ => some [("status", JVal.jstr "all_sent")])
    (fun _ => 0) (fun _ => ⟨[("status", JVal.jstr "all_sent")], rfl, rfl⟩)

/-- Counterexample to claim C1 as stated: in the orchestrator's
post-executor trace the output-transform step occurs, yet no receive on
the finished channel occurs anywhere in it — the orchestrator does not
block for the monitor's shutdown acknowledgment before output-transform
and result reporting. -/
theorem c1_counterexample :
    Ev.outputTransform ∈ mainPostExecutorEvents true
        (OutputFileState.absent "stat output.json: no such file or directory") true true
    ∧ Ev.recvFinished ∉ mainPostExecutorEvents true
        (OutputFileState.absent "stat output.json: no such file or directory") true true := by
  decide

/-- Claim C1 amended: after the executor completes, the orchestrator's
first action is the (buffered, non-blocking) stop signal to the monitor,
it never receives the monitor's acknowledgment itself before proceeding
through output-transform and result reporting, and the acknowledgment is
awaited only by the detached cleanup task it spawns at the end. -/
theorem c1_amended_stop_then_proceed (hasOutputReader : Bool) (st : OutputFileState)
    (hasTarGz hasStdout : Bool) :
    (mainPostExecutorEvents hasOutputReader st hasTarGz hasStdout).head?
        = some Ev.sendStop
    ∧ Ev.recvFinished ∉ mainPostExecutorEvents hasOutputReader st hasTarGz hasStdout
    ∧ Ev.spawnCleanup ∈ mainPostExecutorEvents hasOutputReader st hasTarGz hasStdout
    ∧ cleanupTaskEvents.head? = some Ev.recvFinished := by
  refine ⟨?_, ?_, ?_, rfl⟩ <;>
    cases hasOutputReader <;> cases hasTarGz <;> cases hasStdout <;>
      simp [mainPostExecutorEvents]

/-- Claim C8: when output.json is absent the final result has status
error, its reason mentions the missing output.json file, and the result
is still submitted through the mark_as_complete request in the
post-executor trace. -/
theorem c8_missing_output_still_reported (errMsg : String)
    (hasOutputReader hasTarGz hasStdout : Bool) :
    (buildRunResults (OutputFileState.absent errMsg)).status = "error"
    ∧ (∃ pre post : List Char,
        (buildRunResults (OutputFileState.absent errMsg)).reason.data
          = pre ++ "output.json".data ++ post)
    ∧ Ev.markAsComplete (buildRunResults (OutputFileState.absent errMsg)).status
        (buildRunResults (OutputFileState.absent errMsg)).reason
        ∈ mainPostExecutorEvents hasOutputReader (OutputFileState.absent errMsg)
            hasTarGz hasStdout := by
  refine ⟨rfl, ?_, ?_⟩
  · refine ⟨"No ".data, " file found: ".data ++ errMsg.data, ?_⟩
    show ("No output.json file found: " ++ errMsg).data = _
    have hc : ("No ".data ++ "output.json".data) ++ " file found: ".data
        = "No output.json file found: ".data := by decide
    rw [String.data_append, ← List.append_assoc, hc]
  · cases hasOutputReader <;> cases hasTarGz <;> cases hasStdout <;>
      simp [mainPostExecutorEvents]

/-- Claim C3: in every channel-respecting interleaving of the monitor's
shutdown tail with the cleanup task (with or without a progress_monitor
script), the directory removal is preceded by the monitor's send on the
finished channel; the monitor's send on finished is its last action
before returning, and the cleanup task's first action is the blocking
receive of that acknowledgment. -/
theorem c3_cleanup_waits_for_ack :
    ∀ hasScript : Bool,
      (∀ t ∈ interleavings (monitorShutdownEvents hasScript) cleanupTaskEvents,
        chanOk 0 t = true → sendFinishedBeforeRemoveDir t = true)
      ∧ (monitorShutdownEvents hasScript).getLast? = some Ev.sendFinished
      ∧ cleanupTaskEvents.head? = some Ev.recvFinished := by
  decide

/-- Witness for C3: the sequential interleaving where the monitor stops
first satisfies the channel discipline and removes the directory only
after the acknowledgment. -/
theorem c3_cleanup_waits_for_ack_witness :
    sendFinishedBeforeRemoveDir
        [Ev.recvStop, Ev.sendFinished, Ev.recvFinished, Ev.removeDir] = true :=
  (c3_cleanup_waits_for_ack true).1
    [Ev.recvStop, Ev.sendFinished, Ev.recvFinished, Ev.removeDir]
    (by decide) (by decide)

end ScalarmSiM
